import Mathlib

/-!
Shallow embedding of the core orchestration layer of
`src/src/core/unified_agent_system.py`: transparency logging,
sandboxed local execution, workspace snapshot capture/restore,
session persistence, and the orchestrator facade (session creation,
task execution, metrics, checkpoint restore).

Python dictionaries keyed by strings are modelled as association
lists with Python's insertion-order update semantics; datetimes and
uuid values are abstracted into explicit parameters; float arithmetic
is modelled over the rationals.
-/

/-- `AgentType` enum (source lines 24-33). -/
inductive AgentType where
  | planning
  | coding
  | testing
  | deployment
  | research
  | uiGeneration
  | backend
  | orchestrator
deriving Repr, DecidableEq, BEq

/-- `ExecutionMode` enum (source lines 43-48). -/
inductive ExecutionMode where
  | openhands
  | manus
  | emergent
  | hybrid
deriving Repr, DecidableEq, BEq

/-- Python exceptions that the embedded code can raise. -/
inductive PyError where
  | valueError (msg : String)
  | unboundLocalError (name : String)
deriving Repr, DecidableEq

/-- `AgentAction` dataclass (source lines 50-62).  `timestamp` is an
abstract clock value; `input_data`/`output_data` dictionaries are carried
as their serialized form. -/
structure AgentAction where
  id : String
  agent_type : AgentType
  action_type : String
  description : String
  timestamp : Nat
  input_data : Option String := none
  output_data : Option String := none
  execution_time : ℚ := 0
  success : Bool := true
  error_message : Option String := none
deriving Repr, DecidableEq

/-- `TaskContext` dataclass (source lines 64-85), restricted to the
fields the orchestration layer reads. -/
structure TaskContext where
  task_id : String
  user_id : String
  description : String
  execution_mode : ExecutionMode
  priority : Nat := 1
deriving Repr, DecidableEq

/-- The result dictionary returned by `execute_task` (source lines
576-581 on success, 603-608 on failure): the `result` field is the
`"result"` key, `error` the `"error"` key. -/
structure TaskResult where
  success : Bool
  result : Option String
  error : Option String
  execution_time : ℚ
  task_id : String
deriving Repr, DecidableEq

/-- Lookup in a Python dict modelled as an association list
(first binding wins; a dict has unique keys). -/
def lookupStr {α : Type} : List (String × α) → String → Option α
  | [], _ => none
  | (k, v) :: rest, key => if k = key then some v else lookupStr rest key

/-- Python dict assignment `d[key] = v`: overwrite the existing binding
in place, else append a new binding (insertion order preserved). -/
def dictSet {α : Type} : List (String × α) → String → α → List (String × α)
  | [], key, v => [(key, v)]
  | (k, w) :: rest, key, v =>
      if k = key then (key, v) :: rest else (k, w) :: dictSet rest key v

/-!  ## SandboxedExecutor, local strategy  -/

/-- `ExecutionResult` dictionary produced by the executor
(source lines 204-231). -/
structure ExecutionRes where
  execution_id : String
  success : Bool
  stdout : String
  stderr : String
  exit_code : Int
  execution_time : ℚ
deriving Repr, DecidableEq

/-- Outcome of the spawned subprocess inside `_execute_locally`:
it finishes within the timeout, the `asyncio.wait_for` bound expires,
or spawning itself raises. -/
inductive LocalProcOutcome where
  | completed (stdout stderr : String) (returncode : Int) (elapsed : ℚ)
  | timedOut
  | spawnError (msg : String) (elapsed : ℚ)
deriving Repr, DecidableEq

/-- `SandboxedExecutor._execute_locally` (source lines 183-232).
The returned Bool records whether `process.kill()` was invoked, which
happens exactly in the `asyncio.TimeoutError` branch (line 214).  In the
timeout branch the source reports `execution_time` as the configured
`timeout` itself (line 221), not the measured elapsed time. -/
def _execute_locally (execution_id : String) (timeout : ℚ)
    (outcome : LocalProcOutcome) : ExecutionRes × Bool :=
  match outcome with
  | .completed out err rc elapsed =>
      ({ execution_id := execution_id, success := rc == 0, stdout := out,
         stderr := err, exit_code := rc, execution_time := elapsed }, false)
  | .timedOut =>
      ({ execution_id := execution_id, success := false, stdout := "",
         stderr := "Command timed out", exit_code := -1,
         execution_time := timeout }, true)
  | .spawnError msg elapsed =>
      ({ execution_id := execution_id, success := false, stdout := "",
         stderr := msg, exit_code := -1, execution_time := elapsed }, false)

/-!  ## TransparencyLogger  -/

/-- A transparency subscriber callback; `Except.error` models the
callback raising when invoked on the action. -/
abbrev Subscriber := AgentAction → Except String Unit

/-- `TransparencyLogger` (source lines 234-277). -/
structure TransparencyLogger where
  session_id : String
  actions : List AgentAction
  subscribers : List Subscriber

/-- `TransparencyLogger.log_action` (source lines 242-251): append the
action to the ordered list, then notify every subscriber.  Each
notification sits in its own try/except (lines 247-251), so one failing
callback is caught and logged without stopping the loop or propagating
to the appender; the loop is therefore a total traversal collecting each
notification attempt's outcome, returned here alongside the new logger. -/
def TransparencyLogger.log_action (l : TransparencyLogger) (action : AgentAction) :
    TransparencyLogger × List (Except String Unit) :=
  ({ l with actions := l.actions ++ [action] },
   l.subscribers.map (fun s => s action))

/-- `TransparencyLogger.subscribe` (source lines 253-255). -/
def TransparencyLogger.subscribe (l : TransparencyLogger) (callback : Subscriber) :
    TransparencyLogger :=
  { l with subscribers := l.subscribers ++ [callback] }

/-- `TransparencyLogger.get_actions` (source lines 257-268).  Python
truthiness: a `None` filter and both a `None` and a `0` limit leave the
list untouched; `actions[-limit:]` keeps the last `limit` elements. -/
def TransparencyLogger.get_actions (l : TransparencyLogger)
    (agent_type : Option AgentType) (limit : Option Nat) : List AgentAction :=
  let actions := match agent_type with
    | some t => l.actions.filter (fun a => a.agent_type == t)
    | none => l.actions
  match limit with
  | some n => if n = 0 then actions else actions.drop (actions.length - n)
  | none => actions

/-!  ## SessionManager: workspace capture / restore and persistence  -/

/-- One entry of `workspace.rglob("*")`: a filesystem node seen during
capture.  `text` is the result of `open(file, mode r, encoding utf-8)`
followed by `read()`: `some s` when the bytes decode as text, `none`
when the read raises `UnicodeDecodeError` or `PermissionError` (the two
exceptions the capture loop catches and skips, source line 367). -/
structure PyFile where
  path : String
  is_dir : Bool
  size : Nat
  text : Option String
deriving Repr, DecidableEq

/-- A workspace is the list of nodes in `rglob` traversal order. -/
abbrev Workspace := List PyFile

/-- Abstract `git status --porcelain` outcome (source lines 411-433). -/
structure GitStatus where
  status : String
  is_git_repo : Bool
  has_changes : Bool
deriving Repr, DecidableEq

/-- `WorkspaceSnapshot` dictionary built by `_capture_workspace`
(source lines 351-356).  `struct` is the `"structure"` key. -/
structure WorkspaceSnapshot where
  files : List (String × String)
  struct : List (String × Bool × Nat)
  git_status : Option GitStatus
  timestamp : String
deriving Repr, DecidableEq

/-- The per-file body of the capture loop (source lines 360-369): a
regular file strictly below the 1 MiB size limit whose content reads as
text contributes `relative_path ↦ content`; every other node — a
directory, an oversized file, or a file whose read raises one of the two
caught exceptions — contributes nothing and the loop moves on. -/
def capture_file_entry (f : PyFile) : Option (String × String) :=
  if f.is_dir = false ∧ f.size < 1024 * 1024 then
    match f.text with
    | some content => some (f.path, content)
    | none => none
  else none

/-- `SessionManager._capture_workspace` (source lines 348-390): first
the file-content loop, then the structure loop over every node with its
directory flag and size (`st_size` for files, `0` for directories,
source line 377), then the optional git status.  `timestamp` abstracts
`datetime.now().isoformat()`. -/
def _capture_workspace (ws : Workspace) (timestamp : String)
    (git : Option GitStatus) : WorkspaceSnapshot :=
  { files := ws.filterMap capture_file_entry
  , struct := ws.map (fun f => (f.path, f.is_dir, if f.is_dir then 0 else f.size))
  , git_status := git
  , timestamp := timestamp }

/-- Writing one file during restore (source lines 399-404): `open(path,
mode w)` overwrites an existing file at that path, otherwise creates it.
The target directory tree is modelled as a path → content map. -/
def writeFileAt (fs : List (String × String)) (p c : String) :
    List (String × String) :=
  dictSet fs p c

/-- The restore loop over `snapshot["files"]` in insertion order
(source lines 399-404). -/
def _restore_files (fs : List (String × String)) :
    List (String × String) → List (String × String)
  | [] => fs
  | (p, c) :: rest => _restore_files (writeFileAt fs p c) rest

/-- `SessionManager._restore_workspace` (source lines 392-409): write
every entry of the snapshot's `files` map into the target tree, creating
parent directories as needed; nodes absent from `files` are not
recreated. -/
def _restore_workspace (snapshot : WorkspaceSnapshot)
    (target : List (String × String)) : List (String × String) :=
  _restore_files target snapshot.files

/-- The persisted session document written by `_save_session`
(source lines 435-452), restricted to the fields restore reads. -/
structure SessionDoc where
  session_id : String
  user_id : String
  workspace_snapshot : WorkspaceSnapshot
  transparency_log : List AgentAction
  checkpoint_name : Option String
deriving Repr, DecidableEq

/-- `SessionManager._load_session` (source lines 454-482): the durable
store keyed by session id; a missing id returns `None` rather than
raising (the `session_file.exists()` check, lines 458-459). -/
def _load_session (storage : List (String × SessionDoc))
    (session_id : String) : Option SessionDoc :=
  lookupStr storage session_id

/-- `SessionManager.restore_from_checkpoint` (source lines 335-346):
load the restore point; if the id is absent raise
`ValueError(f"Restore point {restore_point_id} not found")`; otherwise
restore the workspace into the target and return the loaded state with
the resulting target tree. -/
def restore_from_checkpoint (storage : List (String × SessionDoc))
    (restore_point_id : String) (target_workspace : List (String × String)) :
    Except PyError (SessionDoc × List (String × String)) :=
  match _load_session storage restore_point_id with
  | none =>
      Except.error (PyError.valueError
        ("Restore point " ++ restore_point_id ++ " not found"))
  | some restore_point =>
      Except.ok (restore_point,
        _restore_workspace restore_point.workspace_snapshot target_workspace)

/-!  ## UnifiedAgentOrchestrator  -/

/-- The orchestrator's `self.metrics` dictionary (source lines 502-508),
minus the constant `swe_bench_score` entry. -/
structure Metrics where
  total_tasks : Nat
  successful_tasks : Nat
  failed_tasks : Nat
  avg_execution_time : ℚ
deriving Repr, DecidableEq

/-- Initial metrics at orchestrator construction (source lines 502-508). -/
def initialMetrics : Metrics :=
  { total_tasks := 0, successful_tasks := 0, failed_tasks := 0,
    avg_execution_time := 0 }

/-- The orchestrator's mutable state reached by the embedded methods:
the `self.transparency_loggers` dict and `self.metrics`. -/
structure OrchestratorState where
  transparency_loggers : List (String × TransparencyLogger)
  metrics : Metrics

/-- The orchestrator state right after `__init__` (source lines 487-508). -/
def emptyOrchestratorState : OrchestratorState :=
  { transparency_loggers := [], metrics := initialMetrics }

/-- The set of locals of `UnifiedAgentOrchestrator.create_session`
already assigned when control reaches the argument expression
`str(self.workspace_root / session_id)` on source line 518: none —
`session_id` is assigned only by the very statement that reads it. -/
def create_session_locals_at_line_518 : List (String × String) := []

/-- `UnifiedAgentOrchestrator.create_session` (source lines 515-524).
The body's first evaluated expression reads the local `session_id`
(line 518) before the assignment on line 517 has produced it, so Python
raises `UnboundLocalError` before `SessionManager.create_session` is
ever called; the remainder of the body (registering the
`TransparencyLogger`, returning the id) is unreachable. -/
def UnifiedAgentOrchestrator.create_session (st : OrchestratorState)
    (user_id : String) : OrchestratorState × Except PyError String :=
  match lookupStr create_session_locals_at_line_518 "session_id" with
  | none => (st, Except.error (PyError.unboundLocalError "session_id"))
  | some session_id =>
      -- unreachable: no assignment to session_id precedes line 518
      ({ st with transparency_loggers :=
          (dictSet st.transparency_loggers session_id
            (TransparencyLogger.mk session_id [] [])) },
       Except.ok session_id)

/-- The `task_start` action built at source lines 535-542; `uuid`
abstracts `uuid.uuid4()`, `now` abstracts `datetime.now()`, and the
`asdict(task_context)` payload is carried as the task description. -/
def start_action_of (tc : TaskContext) (uuid : String) (now : Nat) :
    AgentAction :=
  { id := uuid, agent_type := AgentType.orchestrator,
    action_type := "task_start",
    description := "Starting task: " ++ tc.description,
    timestamp := now, input_data := some tc.description }

/-- The `task_complete` action built at source lines 559-568. -/
def completion_action_of (result : String) (d : ℚ) (uuid : String)
    (now : Nat) : AgentAction :=
  { id := uuid, agent_type := AgentType.orchestrator,
    action_type := "task_complete",
    description := "Task completed successfully",
    timestamp := now, output_data := some result,
    execution_time := d, success := true }

/-- The `task_failed` action built at source lines 587-596. -/
def failure_action_of (err : String) (d : ℚ) (uuid : String) (now : Nat) :
    AgentAction :=
  { id := uuid, agent_type := AgentType.orchestrator,
    action_type := "task_failed",
    description := "Task failed: " ++ err,
    timestamp := now, execution_time := d, success := false,
    error_message := some err }

/-- Metrics update on the success path: the increments at source lines
572-573 followed by `_update_avg_execution_time` (lines 789-796), which
reads `total_tasks` after the increment and computes
`(current_avg * (total_tasks - 1) + execution_time) / total_tasks`. -/
def metricsAfterSuccess (m : Metrics) (execution_time : ℚ) : Metrics :=
  let total_tasks := m.total_tasks + 1
  { total_tasks := total_tasks
  , successful_tasks := m.successful_tasks + 1
  , failed_tasks := m.failed_tasks
  , avg_execution_time :=
      (m.avg_execution_time * ((total_tasks : ℚ) - 1) + execution_time)
        / (total_tasks : ℚ) }

/-- Metrics update on the failure path (source lines 600-601): the
average is not touched there. -/
def metricsAfterFailure (m : Metrics) : Metrics :=
  { m with total_tasks := m.total_tasks + 1,
           failed_tasks := m.failed_tasks + 1 }

/-- `UnifiedAgentOrchestrator.execute_task` (source lines 526-608).
`strategy` is the mode handler selected by the dispatch on
`task_context.execution_mode` (lines 546-554); it receives the session's
logger (after the `task_start` append) and either returns the updated
logger with a result payload or raises — the `Except.error` case, which
the surrounding `except Exception` block (lines 583-608) converts into a
`task_failed` action, a failure metrics update, and a returned failure
dictionary rather than a re-raise.  `d` abstracts the measured
wall-clock duration, `uuid1`/`uuid2` the generated action ids, `now` the
clock. -/
def execute_task (st : OrchestratorState) (session_id : String)
    (tc : TaskContext)
    (strategy : TransparencyLogger → Except String (TransparencyLogger × String))
    (d : ℚ) (uuid1 uuid2 : String) (now : Nat) :
    OrchestratorState × Except PyError TaskResult :=
  match lookupStr st.transparency_loggers session_id with
  | none =>
      (st, Except.error (PyError.valueError
        ("Session " ++ session_id ++ " not found")))
  | some tl =>
      let tl1 := (tl.log_action (start_action_of tc uuid1 now)).1
      match strategy tl1 with
      | Except.ok (tl2, result) =>
          let tl3 := (tl2.log_action (completion_action_of result d uuid2 now)).1
          ({ transparency_loggers := dictSet st.transparency_loggers session_id tl3
           , metrics := metricsAfterSuccess st.metrics d },
           Except.ok { success := true, result := some result, error := none,
                       execution_time := d, task_id := tc.task_id })
      | Except.error e =>
          let tl3 := (tl1.log_action (failure_action_of e d uuid2 now)).1
          ({ transparency_loggers := dictSet st.transparency_loggers session_id tl3
           , metrics := metricsAfterFailure st.metrics },
           Except.ok { success := false, result := none, error := some e,
                       execution_time := d, task_id := tc.task_id })

/-- `UnifiedAgentOrchestrator.get_transparency_log` (source lines
798-807): an unknown session id yields the empty list (lines 801-802);
otherwise the session logger's filtered action history. -/
def get_transparency_log (st : OrchestratorState) (session_id : String)
    (agent_type : Option AgentType) : List AgentAction :=
  match lookupStr st.transparency_loggers session_id with
  | none => []
  | some l => l.get_actions agent_type none

/-- `UnifiedAgentOrchestrator.restore_session` (source lines 816-833).
The whole body sits in a try/except (lines 818-833) whose handler logs
the error and returns `False`; on success a fresh logger is registered
for the target session, the restored actions are replayed into it, and
`True` is returned.  The `Except` in the result records whether anything
escapes to the caller: nothing ever does. -/
def restore_session (st : OrchestratorState)
    (storage : List (String × SessionDoc))
    (restore_point_id target_session_id : String)
    (target_workspace : List (String × String)) :
    OrchestratorState × Except PyError Bool :=
  match restore_from_checkpoint storage restore_point_id target_workspace with
  | Except.error _ => (st, Except.ok false)
  | Except.ok (restored_state, _) =>
      let tl := restored_state.transparency_log.foldl
        (fun l a => (l.log_action a).1)
        (TransparencyLogger.mk target_session_id [] [])
      ({ st with transparency_loggers :=
          dictSet st.transparency_loggers target_session_id tl },
       Except.ok true)

/-- The dictionary returned by `get_metrics` (source lines 835-854),
restricted to the non-constant entries. -/
structure MetricsSnapshot where
  total_tasks : Nat
  successful_tasks : Nat
  failed_tasks : Nat
  avg_execution_time : ℚ
  success_rate : ℚ
  active_sessions : Nat
deriving Repr, DecidableEq

/-- `UnifiedAgentOrchestrator.get_metrics` (source lines 835-854):
`success_rate` is `successful/total*100` when `total_tasks > 0` and
`0.0` otherwise (lines 837-839); `active_sessions` counts the
registered transparency loggers. -/
def get_metrics (st : OrchestratorState) : MetricsSnapshot :=
  { total_tasks := st.metrics.total_tasks
  , successful_tasks := st.metrics.successful_tasks
  , failed_tasks := st.metrics.failed_tasks
  , avg_execution_time := st.metrics.avg_execution_time
  , success_rate :=
      if st.metrics.total_tasks > 0 then
        (st.metrics.successful_tasks : ℚ) / (st.metrics.total_tasks : ℚ) * 100
      else 0
  , active_sessions := st.transparency_loggers.length }

/-!  ## Concrete fixtures used by witness theorems  -/

/-- A fresh logger for session `s1`. -/
def tlW : TransparencyLogger := TransparencyLogger.mk "s1" [] []

/-- An orchestrator state holding exactly the session `s1`. -/
def stW : OrchestratorState :=
  { transparency_loggers := [("s1", tlW)], metrics := initialMetrics }

/-- A sample task context. -/
def tcW : TaskContext :=
  { task_id := "t1", user_id := "u1", description := "demo",
    execution_mode := ExecutionMode.openhands }

/-- A mode handler that raises on every invocation. -/
def strategyW : TransparencyLogger → Except String (TransparencyLogger × String) :=
  fun _ => Except.error "boom"

/-- A subscriber whose callback succeeds. -/
def subOkW : Subscriber := fun _ => Except.ok ()

/-- A subscriber whose callback raises. -/
def subBadW : Subscriber := fun _ => Except.error "subscriber failed"

/-- A sample action. -/
def actW : AgentAction :=
  { id := "a1", agent_type := AgentType.planning, action_type := "perceive",
    description := "analyze", timestamp := 0 }

/-- A second sample action. -/
def actW2 : AgentAction :=
  { id := "a2", agent_type := AgentType.coding, action_type := "run",
    description := "run step", timestamp := 1 }

/-- An orchestrator state whose metrics record a run of successful task
completions with the given durations, each applied through the success
path update `metricsAfterSuccess` used by `execute_task`. -/
def metricsStateOf (ds : List ℚ) : OrchestratorState :=
  { transparency_loggers := []
  , metrics := ds.foldl metricsAfterSuccess initialMetrics }

/-- A sample workspace: two small text files and one directory. -/
def wsW : Workspace :=
  [ PyFile.mk "a.txt" false 5 (some "hello")
  , PyFile.mk "sub" true 0 none
  , PyFile.mk "sub/b.txt" false 3 (some "hey") ]

/-!  ## Helper lemmas  -/

/-- Assigning a key in a dict makes it the looked-up binding. -/
theorem lookupStr_dictSet_self {α : Type} (xs : List (String × α))
    (k : String) (v : α) : lookupStr (dictSet xs k v) k = some v := by
  induction xs with
  | nil => simp [dictSet, lookupStr]
  | cons hd rest ih =>
    obtain ⟨k', v'⟩ := hd
    by_cases h : k' = k
    · simp [dictSet, h, lookupStr]
    · simp [dictSet, h, lookupStr, ih]

/-- Assigning a fresh key appends the binding at the end. -/
theorem dictSet_append_of_not_mem {α : Type} (xs : List (String × α))
    (k : String) (v : α) (h : k ∉ xs.map Prod.fst) :
    dictSet xs k v = xs ++ [(k, v)] := by
  induction xs with
  | nil => rfl
  | cons hd rest ih =>
    obtain ⟨k', v'⟩ := hd
    simp only [List.map_cons, List.mem_cons] at h
    push_neg at h
    simp only [dictSet, if_neg (Ne.symm h.1), List.cons_append,
      List.cons.injEq, true_and]
    exact ih h.2

/-- On disjoint fresh keys with no duplicates, the restore loop appends
each written file once. -/
theorem restore_files_append (l : List (String × String)) :
    ∀ fs : List (String × String),
      (∀ k ∈ l.map Prod.fst, k ∉ fs.map Prod.fst) →
      (l.map Prod.fst).Nodup →
      _restore_files fs l = fs ++ l := by
  induction l with
  | nil => intro fs _ _; simp [_restore_files]
  | cons hd rest ih =>
    obtain ⟨p, c⟩ := hd
    intro fs hdisj hnd
    simp only [List.map_cons, List.nodup_cons] at hnd
    have hp : p ∉ fs.map Prod.fst := hdisj p (by simp)
    rw [_restore_files, writeFileAt, dictSet_append_of_not_mem fs p c hp,
      ih (fs ++ [(p, c)]) ?_ hnd.2]
    · simp
    · intro k hk
      simp only [List.map_append, List.map_cons, List.map_nil,
        List.mem_append, List.mem_singleton, not_or]
      refine ⟨hdisj k (by simp [hk]), ?_⟩
      rintro rfl
      exact hnd.1 hk

/-- Lookup of a present key in a duplicate-free dict finds its value. -/
theorem lookupStr_eq_of_mem {α : Type} (xs : List (String × α))
    (k : String) (v : α) (hmem : (k, v) ∈ xs)
    (hnd : (xs.map Prod.fst).Nodup) : lookupStr xs k = some v := by
  induction xs with
  | nil => cases hmem
  | cons hd rest ih =>
    obtain ⟨k', v'⟩ := hd
    simp only [List.map_cons, List.nodup_cons] at hnd
    rcases List.mem_cons.mp hmem with heq | hrest
    · obtain ⟨rfl, rfl⟩ := Prod.mk.injEq .. ▸ heq
      simp [lookupStr]
    · have hne : k' ≠ k := by
        rintro rfl
        exact hnd.1 (List.mem_map.mpr ⟨(k', v), hrest, rfl⟩)
      simp [lookupStr, hne, ih hrest hnd.2]

/-- Characterization of the per-file capture step. -/
theorem capture_file_entry_eq_some (f : PyFile) (p c : String) :
    capture_file_entry f = some (p, c) ↔
      f.path = p ∧ f.is_dir = false ∧ f.size < 1024 * 1024 ∧
        f.text = some c := by
  unfold capture_file_entry
  by_cases h : f.is_dir = false ∧ f.size < 1024 * 1024
  · rw [if_pos h]
    cases ht : f.text with
    | none => simp [ht]
    | some t =>
      simp only [ht, Option.some.injEq, Prod.mk.injEq]
      constructor
      · rintro ⟨rfl, rfl⟩
        exact ⟨rfl, h.1, h.2, rfl⟩
      · rintro ⟨h1, _, _, h4⟩
        exact ⟨h1, h4⟩
  · rw [if_neg h]
    constructor
    · rintro ⟨⟩
    · rintro ⟨_, h2, h3, _⟩
      exact absurd ⟨h2, h3⟩ h

/-- The keys of the captured `files` map form a subsequence of the
workspace paths, in traversal order. -/
theorem capture_files_keys_sublist (ws : Workspace) :
    List.Sublist ((ws.filterMap capture_file_entry).map Prod.fst)
      (ws.map PyFile.path) := by
  induction ws with
  | nil => simp
  | cons f rest ih =>
    rw [List.filterMap_cons]
    cases hf : capture_file_entry f with
    | none =>
      rw [List.map_cons]
      exact ih.cons f.path
    | some pc =>
      obtain ⟨p, c⟩ := pc
      have hp : f.path = p := ((capture_file_entry_eq_some f p c).mp hf).1
      rw [List.map_cons, List.map_cons, hp]
      exact ih.cons₂ p

/-- The running-average fold: closed forms for the counters and the
invariant `avg * total = sum of recorded durations`. -/
theorem foldl_metricsAfterSuccess_spec (ds : List ℚ) :
    ∀ m : Metrics,
      (ds.foldl metricsAfterSuccess m).total_tasks = m.total_tasks + ds.length
    ∧ (ds.foldl metricsAfterSuccess m).successful_tasks
        = m.successful_tasks + ds.length
    ∧ (ds.foldl metricsAfterSuccess m).avg_execution_time
          * ((ds.foldl metricsAfterSuccess m).total_tasks : ℚ)
        = m.avg_execution_time * (m.total_tasks : ℚ) + ds.sum := by
  induction ds with
  | nil => intro m; simp
  | cons d rest ih =>
    intro m
    obtain ⟨ih1, ih2, ih3⟩ := ih (metricsAfterSuccess m d)
    refine ⟨?_, ?_, ?_⟩
    · rw [List.foldl_cons, ih1]
      simp only [metricsAfterSuccess, List.length_cons]
      omega
    · rw [List.foldl_cons, ih2]
      simp only [metricsAfterSuccess, List.length_cons]
      omega
    · rw [List.foldl_cons, ih3]
      have hne : ((m.total_tasks : ℚ) + 1) ≠ 0 := by positivity
      simp only [metricsAfterSuccess, List.sum_cons]
      push_cast
      rw [div_mul_cancel₀ _ hne]
      ring

/-!  ## Claim theorems  -/

/-- Claim C1.  The claim states that `create_session` returns a fresh
session id, persists the state and registers a logger without raising.
On the code this fails for every user id: line 518 reads the local
`session_id` before the assignment on line 517 binds it, so the call
raises `UnboundLocalError` unconditionally, creating nothing. -/
theorem create_session_always_raises_unbound_local
    (st : OrchestratorState) (user_id : String) :
    UnifiedAgentOrchestrator.create_session st user_id =
      (st, Except.error (PyError.unboundLocalError "session_id")) := rfl

/-- Claim C3.  Under the local-process strategy, a command whose
execution exceeds the configured timeout yields a result with
`success = false`, `exit_code = -1` and a reported duration equal to the
configured timeout, and the process is forcibly killed. -/
theorem execute_locally_timeout_result (execution_id : String) (timeout : ℚ) :
    (_execute_locally execution_id timeout LocalProcOutcome.timedOut).1.success
        = false
  ∧ (_execute_locally execution_id timeout LocalProcOutcome.timedOut).1.exit_code
        = -1
  ∧ (_execute_locally execution_id timeout
        LocalProcOutcome.timedOut).1.execution_time = timeout
  ∧ (_execute_locally execution_id timeout LocalProcOutcome.timedOut).2
        = true :=
  ⟨rfl, rfl, rfl, rfl⟩

/-- Claim C5.  A subscriber whose callback raises does not prevent
delivery of the same action to every other subscriber: each registered
callback, before and after the failing one, is invoked on the action
with its own independent outcome; the action is still recorded, and a
subsequent `log_action` call records its action as well — `log_action`
itself never raises to its caller (its embedding is total because every
notification sits in its own try/except). -/
theorem log_action_subscriber_isolation (pre post : List Subscriber)
    (bad : Subscriber) (sid : String) (acts : List AgentAction)
    (a b : AgentAction) (e : String)
    (hbad : bad a = Except.error e) :
    (TransparencyLogger.log_action ⟨sid, acts, pre ++ bad :: post⟩ a).2
        = pre.map (fun s => s a) ++ Except.error e :: post.map (fun s => s a)
  ∧ (TransparencyLogger.log_action ⟨sid, acts, pre ++ bad :: post⟩ a).1.actions
        = acts ++ [a]
  ∧ (((TransparencyLogger.log_action ⟨sid, acts, pre ++ bad :: post⟩ a).1).log_action
        b).1.actions = acts ++ [a, b] := by
  refine ⟨?_, rfl, ?_⟩
  · simp [TransparencyLogger.log_action, hbad]
  · simp [TransparencyLogger.log_action]

/-- Witness for claim C5 at a concrete logger with a succeeding
subscriber on each side of a raising one. -/
theorem log_action_subscriber_isolation_witness :
    subBadW actW = Except.error "subscriber failed"
  ∧ ((TransparencyLogger.log_action ⟨"s1", [], [subOkW] ++ subBadW :: [subOkW]⟩
        actW).2
      = [subOkW].map (fun s => s actW)
          ++ Except.error "subscriber failed" :: [subOkW].map (fun s => s actW)
    ∧ (TransparencyLogger.log_action ⟨"s1", [], [subOkW] ++ subBadW :: [subOkW]⟩
        actW).1.actions = [] ++ [actW]
    ∧ (((TransparencyLogger.log_action ⟨"s1", [], [subOkW] ++ subBadW :: [subOkW]⟩
        actW).1).log_action actW2).1.actions = [] ++ [actW, actW2]) :=
  ⟨rfl, log_action_subscriber_isolation [subOkW] [subOkW] subBadW "s1" []
    actW actW2 "subscriber failed" rfl⟩

/-- Claim C8.  Executing a task on a session id with no registered
transparency logger raises `ValueError` (the SessionNotFound-class
error, source lines 528-529) directly to the caller, leaving the
orchestrator state — loggers and metrics alike — untouched: the raise
happens before any action is appended. -/
theorem execute_task_unknown_session_raises (st : OrchestratorState)
    (sid : String) (tc : TaskContext)
    (strategy : TransparencyLogger → Except String (TransparencyLogger × String))
    (d : ℚ) (uuid1 uuid2 : String) (now : Nat)
    (h : lookupStr st.transparency_loggers sid = none) :
    execute_task st sid tc strategy d uuid1 uuid2 now =
      (st, Except.error (PyError.valueError
        ("Session " ++ sid ++ " not found"))) := by
  simp [execute_task, h]

/-- Witness for claim C8 on the freshly constructed orchestrator and a
session id that was never created. -/
theorem execute_task_unknown_session_raises_witness :
    lookupStr emptyOrchestratorState.transparency_loggers "ghost" = none
  ∧ execute_task emptyOrchestratorState "ghost" tcW strategyW 1 "a" "b" 0 =
      (emptyOrchestratorState, Except.error (PyError.valueError
        ("Session " ++ "ghost" ++ " not found"))) :=
  ⟨rfl, execute_task_unknown_session_raises emptyOrchestratorState "ghost"
    tcW strategyW 1 "a" "b" 0 rfl⟩

/-- Claim C10.  Requesting the transparency log of a session id with no
registered logger returns the empty list rather than raising. -/
theorem get_transparency_log_unknown_session_empty (st : OrchestratorState)
    (sid : String) (agent_type : Option AgentType)
    (h : lookupStr st.transparency_loggers sid = none) :
    get_transparency_log st sid agent_type = [] := by
  simp [get_transparency_log, h]

/-- Witness for claim C10 on the freshly constructed orchestrator. -/
theorem get_transparency_log_unknown_session_empty_witness :
    lookupStr emptyOrchestratorState.transparency_loggers "ghost" = none
  ∧ get_transparency_log emptyOrchestratorState "ghost" none = [] :=
  ⟨rfl, get_transparency_log_unknown_session_empty emptyOrchestratorState
    "ghost" none rfl⟩

/-- Claim C2.  When the selected mode handler raises (here: returns
`Except.error e` when invoked on the session logger carrying the
`task_start` action), `execute_task` returns normally — no exception
reaches the caller — with a failure result carrying the error message;
the session logger gains a `task_failed` action holding that message,
and the metrics take the failure update, which bumps both the total and
the failed counter by one. -/
theorem execute_task_strategy_failure_handled (st : OrchestratorState)
    (sid : String) (tc : TaskContext)
    (strategy : TransparencyLogger → Except String (TransparencyLogger × String))
    (d : ℚ) (uuid1 uuid2 : String) (now : Nat)
    (tl : TransparencyLogger) (e : String)
    (h1 : lookupStr st.transparency_loggers sid = some tl)
    (h2 : strategy ((tl.log_action (start_action_of tc uuid1 now)).1)
        = Except.error e) :
    execute_task st sid tc strategy d uuid1 uuid2 now =
      ({ transparency_loggers := dictSet st.transparency_loggers sid
           (TransparencyLogger.mk tl.session_id
             (tl.actions
               ++ [start_action_of tc uuid1 now, failure_action_of e d uuid2 now])
             tl.subscribers)
       , metrics := metricsAfterFailure st.metrics },
       Except.ok { success := false, result := none, error := some e,
                   execution_time := d, task_id := tc.task_id })
  ∧ (metricsAfterFailure st.metrics).total_tasks
        = st.metrics.total_tasks + 1
  ∧ (metricsAfterFailure st.metrics).failed_tasks
        = st.metrics.failed_tasks + 1
  ∧ (failure_action_of e d uuid2 now).action_type = "task_failed"
  ∧ (failure_action_of e d uuid2 now).error_message = some e := by
  refine ⟨?_, rfl, rfl, rfl, rfl⟩
  simp only [TransparencyLogger.log_action] at h2
  simp only [execute_task, h1, TransparencyLogger.log_action, h2]
  simp [List.append_assoc]

/-- Witness for claim C2: session `s1` exists in `stW` and the handler
`strategyW` raises `boom` on every invocation. -/
theorem execute_task_strategy_failure_handled_witness :
    lookupStr stW.transparency_loggers "s1" = some tlW
  ∧ strategyW ((tlW.log_action (start_action_of tcW "a" 0)).1)
      = Except.error "boom"
  ∧ (execute_task stW "s1" tcW strategyW 1 "a" "b" 0 =
      ({ transparency_loggers := dictSet stW.transparency_loggers "s1"
           (TransparencyLogger.mk tlW.session_id
             (tlW.actions
               ++ [start_action_of tcW "a" 0, failure_action_of "boom" 1 "b" 0])
             tlW.subscribers)
       , metrics := metricsAfterFailure stW.metrics },
       Except.ok { success := false, result := none, error := some "boom",
                   execution_time := 1, task_id := tcW.task_id })
    ∧ (metricsAfterFailure stW.metrics).total_tasks
          = stW.metrics.total_tasks + 1
    ∧ (metricsAfterFailure stW.metrics).failed_tasks
          = stW.metrics.failed_tasks + 1
    ∧ (failure_action_of "boom" 1 "b" 0).action_type = "task_failed"
    ∧ (failure_action_of "boom" 1 "b" 0).error_message = some "boom") :=
  ⟨rfl, rfl, execute_task_strategy_failure_handled stW "s1" tcW strategyW
    1 "a" "b" 0 tlW "boom" rfl rfl⟩

/-- Counterexample for claim C9 as stated: with an empty durable store,
restoring from the absent checkpoint id `cp1` does NOT raise any error
to the caller — the call returns normally with `false` (the
orchestrator's catch-all at source lines 831-833 swallows the
`ValueError` that `restore_from_checkpoint` raised). -/
theorem restore_session_missing_checkpoint_counterexample :
    restore_session emptyOrchestratorState [] "cp1" "s1" [] =
      (emptyOrchestratorState, Except.ok false) := rfl

/-- Claim C9, amended.  For every checkpoint id absent from the durable
store, the inner `SessionManager.restore_from_checkpoint` raises a
CheckpointNotFound-class `ValueError` (and the underlying load yields a
not-found value rather than raising), but `restore_session` catches that
error in its blanket try/except and returns `false` to its caller
instead of re-raising, leaving the orchestrator state unchanged. -/
theorem restore_session_missing_checkpoint_returns_false
    (st : OrchestratorState) (storage : List (String × SessionDoc))
    (restore_point_id target_session_id : String)
    (target_workspace : List (String × String))
    (h : _load_session storage restore_point_id = none) :
    restore_from_checkpoint storage restore_point_id target_workspace =
        Except.error (PyError.valueError
          ("Restore point " ++ restore_point_id ++ " not found"))
  ∧ restore_session st storage restore_point_id target_session_id
        target_workspace = (st, Except.ok false) := by
  constructor
  · simp [restore_from_checkpoint, h]
  · simp [restore_session, restore_from_checkpoint, h]

/-- Witness for the amended claim C9 on an empty durable store. -/
theorem restore_session_missing_checkpoint_returns_false_witness :
    _load_session [] "cp1" = none
  ∧ (restore_from_checkpoint [] "cp1" [] =
        Except.error (PyError.valueError
          ("Restore point " ++ "cp1" ++ " not found"))
    ∧ restore_session stW [] "cp1" "s2" [] = (stW, Except.ok false)) :=
  ⟨rfl, restore_session_missing_checkpoint_returns_false stW [] "cp1" "s2"
    [] rfl⟩

/-- Claim C4.  Capturing a workspace whose regular files are all
strictly below the 1 MiB threshold and text-decodable, then restoring
the snapshot into an empty target, writes back the exact captured
content for every file and creates nothing beyond the snapshot's
`files` map: the restored tree IS that map (parent directories are
created implicitly and are not file entries). -/
theorem capture_restore_roundtrip (ws : Workspace) (ts : String)
    (git : Option GitStatus)
    (hnodup : (ws.map PyFile.path).Nodup)
    (hall : ∀ f ∈ ws, f.is_dir = false →
        f.size < 1024 * 1024 ∧ f.text ≠ none) :
    (∀ f ∈ ws, f.is_dir = false →
        lookupStr (_restore_workspace (_capture_workspace ws ts git) [])
          f.path = f.text)
  ∧ _restore_workspace (_capture_workspace ws ts git) []
      = (_capture_workspace ws ts git).files := by
  have hkeys : (((_capture_workspace ws ts git).files).map Prod.fst).Nodup :=
    List.Nodup.sublist (capture_files_keys_sublist ws) hnodup
  have hrest : _restore_workspace (_capture_workspace ws ts git) []
      = (_capture_workspace ws ts git).files := by
    show _restore_files [] (_capture_workspace ws ts git).files = _
    rw [restore_files_append _ [] (by simp) hkeys]
    simp
  refine ⟨?_, hrest⟩
  intro f hf hfile
  obtain ⟨hsize, htext⟩ := hall f hf hfile
  obtain ⟨c, hc⟩ := Option.ne_none_iff_exists'.mp htext
  have hmem : (f.path, c) ∈ (_capture_workspace ws ts git).files :=
    List.mem_filterMap.mpr
      ⟨f, hf, (capture_file_entry_eq_some f f.path c).mpr
        ⟨rfl, hfile, hsize, hc⟩⟩
  rw [hrest, hc]
  exact lookupStr_eq_of_mem _ _ _ hmem hkeys

/-- Witness for claim C4 on the sample workspace `wsW`. -/
theorem capture_restore_roundtrip_witness :
    (wsW.map PyFile.path).Nodup
  ∧ (∀ f ∈ wsW, f.is_dir = false →
        f.size < 1024 * 1024 ∧ f.text ≠ none)
  ∧ ((∀ f ∈ wsW, f.is_dir = false →
        lookupStr (_restore_workspace (_capture_workspace wsW "t0" none) [])
          f.path = f.text)
    ∧ _restore_workspace (_capture_workspace wsW "t0" none) []
        = (_capture_workspace wsW "t0" none).files) :=
  ⟨by decide, by decide,
    capture_restore_roundtrip wsW "t0" none (by decide) (by decide)⟩

/-- Claim C7.  A path-content pair is stored in the snapshot's `files`
map exactly when some workspace node at that path is a regular file
strictly below 1 MiB whose content reads as text; every node — also the
skipped ones — appears in the snapshot's structure list with its
directory flag and size (files keep `st_size`, directories report 0);
and capture is total, so a per-file read failure (a skipped `none`
content) never aborts it. -/
theorem capture_workspace_files_characterization (ws : Workspace)
    (ts : String) (git : Option GitStatus) (p c : String) :
    ((p, c) ∈ (_capture_workspace ws ts git).files ↔
      ∃ f, f ∈ ws ∧ f.path = p ∧ f.is_dir = false ∧
        f.size < 1024 * 1024 ∧ f.text = some c)
  ∧ (_capture_workspace ws ts git).struct
      = ws.map (fun f => (f.path, f.is_dir, if f.is_dir then 0 else f.size)) := by
  refine ⟨?_, rfl⟩
  show (p, c) ∈ ws.filterMap capture_file_entry ↔ _
  rw [List.mem_filterMap]
  constructor
  · rintro ⟨f, hf, he⟩
    obtain ⟨h1, h2, h3, h4⟩ := (capture_file_entry_eq_some f p c).mp he
    exact ⟨f, hf, h1, h2, h3, h4⟩
  · rintro ⟨f, hf, h1, h2, h3, h4⟩
    exact ⟨f, hf, (capture_file_entry_eq_some f p c).mpr ⟨h1, h2, h3, h4⟩⟩

/-- Claim C6.  After `N` successful task completions with durations
`ds` starting from the initial metrics (each completion applying the
success-path update `metricsAfterSuccess` that `execute_task` performs),
`get_metrics` reports the average execution time as the arithmetic mean
of `ds` and the success rate as `successful / total * 100`; on the
fresh orchestrator with zero tasks the success rate is 0. -/
theorem metrics_consistency (ds : List ℚ) (h : ds ≠ []) :
    (get_metrics (metricsStateOf ds)).avg_execution_time
      = ds.sum / (ds.length : ℚ)
  ∧ (get_metrics (metricsStateOf ds)).success_rate
      = ((ds.foldl metricsAfterSuccess initialMetrics).successful_tasks : ℚ)
          / ((ds.foldl metricsAfterSuccess initialMetrics).total_tasks : ℚ) * 100
  ∧ (get_metrics emptyOrchestratorState).success_rate = 0 := by
  obtain ⟨h1, h2, h3⟩ := foldl_metricsAfterSuccess_spec ds initialMetrics
  have hlen : ds.length ≠ 0 := fun hl => h (List.length_eq_zero.mp hl)
  have hlenq : (ds.length : ℚ) ≠ 0 := Nat.cast_ne_zero.mpr hlen
  refine ⟨?_, ?_, ?_⟩
  · show (ds.foldl metricsAfterSuccess initialMetrics).avg_execution_time = _
    rw [eq_div_iff hlenq]
    rw [h1] at h3
    simpa [initialMetrics] using h3
  · simp only [get_metrics, metricsStateOf]
    rw [if_pos]
    rw [h1]
    simpa [initialMetrics] using Nat.pos_of_ne_zero hlen
  · rfl

/-- Witness for claim C6 with the two durations 2 and 4: the reported
average is 3 and the success rate 100. -/
theorem metrics_consistency_witness :
    ([(2 : ℚ), 4] ≠ [])
  ∧ ((get_metrics (metricsStateOf [(2 : ℚ), 4])).avg_execution_time
      = [(2 : ℚ), 4].sum / (([(2 : ℚ), 4].length : ℕ) : ℚ)
    ∧ (get_metrics (metricsStateOf [(2 : ℚ), 4])).success_rate
      = (([(2 : ℚ), 4].foldl metricsAfterSuccess initialMetrics).successful_tasks : ℚ)
          / (([(2 : ℚ), 4].foldl metricsAfterSuccess initialMetrics).total_tasks : ℚ)
          * 100
    ∧ (get_metrics emptyOrchestratorState).success_rate = 0) :=
  ⟨by decide, metrics_consistency [(2 : ℚ), 4] (by decide)⟩
